/-
Verification of the Arrmate intent-resolution and execution pipeline.

Shallow embedding of the Python modules:
  * src/arrmate/core/models.py        (Intent, ExecutionResult, enums)
  * src/arrmate/core/intent_engine.py (IntentEngine.enrich / validate)
  * src/arrmate/core/executor.py      (Executor.execute and handlers)
  * src/arrmate/clients/sonarr.py     (delete_episode_files counting)
  * src/arrmate/clients/discovery.py  (per-backend discovery blocks)
  * src/arrmate/llm/schemas.py        (tool schema enums, system prompt)

Backend I/O is modelled by explicit environments: a record of the values
the backend calls would return, with `Except String` for calls that can
raise.  Python truthiness (`if not x:` on optionals, strings, ints and
lists) is embedded explicitly, since several claims hinge on it.
-/

import Mathlib

set_option maxRecDepth 10000

namespace Arrmate

/-! ## Python truthiness helpers -/

/-- Python truthiness of an `Optional[str]`: `None` and `""` are falsy. -/
def pyTruthyStr : Option String → Bool
  | none => false
  | some s => s ≠ ""

/-- Python truthiness of an `Optional[int]`: `None` and `0` are falsy. -/
def pyTruthyInt : Option Int → Bool
  | none => false
  | some n => n ≠ 0

/-- Python truthiness of an `Optional[List[int]]`: `None` and `[]` are falsy. -/
def pyTruthyList : Option (List Int) → Bool
  | none => false
  | some l => l ≠ []

/-- Python `f"{x}"` on an `Optional[str]`: `None` renders as `"None"`. -/
def pyShowOptStr : Option String → String
  | none => "None"
  | some s => s

/-- Python `repr` of a list of ints, as used by f-string interpolation:
`[1, 2]`. -/
def pyShowIntList (l : List Int) : String :=
  "[" ++ String.intercalate ", " (l.map toString) ++ "]"

/-- Python `f"{x}"` on an `Optional[int]`: `None` renders as `"None"`. -/
def pyShowOptInt : Option Int → String
  | none => "None"
  | some n => toString n

/-! ## Data model (core/models.py) -/

/-- `ActionType` enum from core/models.py (values are the wire strings). -/
inductive ActionType where
  | remove
  | search
  | add
  | upgrade
  | list
  | info
  | delete
  deriving DecidableEq, Repr

/-- `MediaType` enum from core/models.py. -/
inductive MediaType where
  | tv
  | movie
  | music
  | audiobook
  deriving DecidableEq, Repr

/-- Pydantic validation of a raw string against the `ActionType` enum:
accepted values are exactly the enum's values (`use_enum_values` keeps the
raw string, but membership is still enforced at construction). -/
def ActionType.ofString (s : String) : Option ActionType :=
  if s = "remove" then some .remove
  else if s = "search" then some .search
  else if s = "add" then some .add
  else if s = "upgrade" then some .upgrade
  else if s = "list" then some .list
  else if s = "info" then some .info
  else if s = "delete" then some .delete
  else none

/-- Pydantic validation of a raw string against the `MediaType` enum. -/
def MediaType.ofString (s : String) : Option MediaType :=
  if s = "tv" then some .tv
  else if s = "movie" then some .movie
  else if s = "music" then some .music
  else if s = "audiobook" then some .audiobook
  else none

/-- The `.value` string of an `ActionType` member. -/
def ActionType.val : ActionType → String
  | .remove => "remove"
  | .search => "search"
  | .add => "add"
  | .upgrade => "upgrade"
  | .list => "list"
  | .info => "info"
  | .delete => "delete"

/-- The `.value` string of a `MediaType` member. -/
def MediaType.val : MediaType → String
  | .tv => "tv"
  | .movie => "movie"
  | .music => "music"
  | .audiobook => "audiobook"

/-- The `action` enum of `PARSE_MEDIA_COMMAND_SCHEMA` in llm/schemas.py. -/
def schemaActionEnum : List String :=
  ["remove", "search", "add", "upgrade", "list", "info", "delete",
   "download_subtitle", "sync_subtitles"]

/-- The `media_type` enum of `PARSE_MEDIA_COMMAND_SCHEMA` in llm/schemas.py. -/
def schemaMediaTypeEnum : List String :=
  ["tv", "movie", "music", "audiobook", "book", "adult"]

/-- `criteria` entries: an open string-keyed map, opaque to the pipeline. -/
def Criteria := List (String × String)
deriving instance DecidableEq, Repr for Criteria

/-- The `Intent` pydantic model from core/models.py. -/
structure Intent where
  action : ActionType
  media_type : MediaType
  title : Option String := none
  season : Option Int := none
  episodes : Option (List Int) := none
  criteria : Option Criteria := none
  item_id : Option Int := none
  series_id : Option Int := none
  deriving DecidableEq, Repr

/-- Values stored in an `ExecutionResult.data` dict (only the shapes the
pipeline itself produces are distinguished; backend payloads are opaque). -/
inductive DataVal where
  | intVal : Int → DataVal
  | intList : List Int → DataVal
  | strList : List String → DataVal
  | payload : DataVal
  deriving DecidableEq, Repr

/-- The `ExecutionResult` pydantic model from core/models.py. -/
structure ExecutionResult where
  success : Bool
  message : String
  data : Option (List (String × DataVal)) := none
  errors : Option (List String) := none
  deriving DecidableEq, Repr

/-- Look a key up in an `ExecutionResult.data` dict. -/
def ExecutionResult.getData (r : ExecutionResult) (k : String) : Option DataVal :=
  r.data.bind (fun d => d.lookup k)

/-! ## Validator (IntentEngine.validate, intent_engine.py lines 115-141) -/

/-- The season-required validation message. -/
def seasonRequiredMsg : String := "Season number is required when specifying episodes"

/-- `IntentEngine.validate`: pure structural rule checking, returning the
full list of violated rules.  Transcribed clause by clause; note the Python
truthiness tests (`not intent.title`, `intent.episodes and not intent.season`). -/
def validate (intent : Intent) : List String :=
  let errors : List String := []
  let errors :=
    if (intent.action.val = "remove" ∨ intent.action.val = "delete" ∨
        intent.action.val = "info") ∧ ¬ pyTruthyStr intent.title then
      errors ++ ["Title is required for this action"]
    else errors
  let errors :=
    if intent.action.val = "add" ∧ ¬ pyTruthyStr intent.title then
      errors ++ ["Title is required to add media"]
    else errors
  let errors :=
    if intent.media_type.val = "tv" ∧
        (intent.action.val = "remove" ∨ intent.action.val = "delete") ∧
        pyTruthyList intent.episodes ∧ ¬ pyTruthyInt intent.season then
      errors ++ [seasonRequiredMsg]
    else errors
  errors

/-! ## String helpers: Python `str.lower()` and the `in` substring test -/

/-- Python `str.lower()` on the underlying characters (`Char.toLower`
per character, matching `str.lower` on the ASCII titles involved). -/
def pyLower (s : String) : List Char := s.toList.map Char.toLower

/-- `leadsWith n h`: the char list `n` occurs at the start of `h`
(Python `h.startswith(n)` over chars). -/
def leadsWith : List Char → List Char → Bool
  | [], _ => true
  | _ :: _, [] => false
  | a :: as, b :: bs => a == b && leadsWith as bs

/-- `hasSubList n h`: the char list `n` occurs contiguously in `h`
(Python `n in h` for strings, over chars). -/
def hasSubList (n : List Char) : List Char → Bool
  | [] => n.isEmpty
  | c :: t => leadsWith n (c :: t) || hasSubList n t

/-- Python `n in h` on strings. -/
def pyInStr (n h : String) : Bool := hasSubList n.toList h.toList

/-! ## Backend data shapes (untyped dict records, reduced to the fields
the pipeline reads) -/

/-- A library item as returned by `get_all_series` / `get_all_movies`:
the pipeline reads `item.get("title", "")` and `item.get("id")`. -/
structure RawItem where
  title : String
  id : Option Int
  deriving DecidableEq, Repr

/-- A catalog search result: the pipeline reads `.get("tvdbId")`,
`.get("tmdbId")` and (in the add path) `["title"]`. -/
structure SearchResult where
  tvdbId : Option Int := none
  tmdbId : Option Int := none
  title : String := ""
  deriving DecidableEq, Repr

/-- An episode record from `get_episodes`: the pipeline reads
`.get("episodeNumber")` and `.get("episodeFileId")`. -/
structure RawEpisode where
  episodeNumber : Option Int := none
  episodeFileId : Option Int := none
  deriving DecidableEq, Repr

/-- The backend environment for one enrichment call: the values the
client's calls would return.  `library` backs `get_all_series` (TV) /
`get_all_movies` (movie); clients for other media types have neither
method, so their listing is empty.  `searchCatalog` and `getEpisodes`
can raise, hence `Except`. -/
structure EnrichEnv where
  library : List RawItem
  searchCatalog : String → Except String (List SearchResult)
  getEpisodes : Int → Option Int → Except String (List RawEpisode)

/-- The library listing `_resolve_title` scans: `hasattr(client,
"get_all_series")` holds for the TV client, `get_all_movies` for the movie
client, neither for music/audiobook clients. -/
def enrichItems (env : EnrichEnv) (mt : MediaType) : List RawItem :=
  if mt.val = "tv" ∨ mt.val = "movie" then env.library else []

/-- The exact-match test of `_resolve_title`:
`item.get("title", "").lower() == intent.title.lower()`. -/
def exactMatch (t : String) (item : RawItem) : Bool :=
  pyLower item.title == pyLower t

/-- The partial-match test of `_resolve_title`:
`intent.title.lower() in item.get("title", "").lower()`. -/
def partialMatch (t : String) (item : RawItem) : Bool :=
  hasSubList (pyLower t) (pyLower item.title)

/-- Write the ids a library hit assigns: `intent.item_id = item.get("id")`
and, for TV, `intent.series_id = item.get("id")`. -/
def assignIds (intent : Intent) (item : RawItem) : Intent :=
  { intent with
    item_id := item.id
    series_id := if intent.media_type.val = "tv" then item.id else intent.series_id }

/-- `IntentEngine._resolve_title` (intent_engine.py lines 47-94): exact
match over the library first, then partial match, then the external
catalog; no library and no search hit raises
`ValueError(f"Could not find '{title}' ...")`. -/
def resolveTitle (env : EnrichEnv) (intent : Intent) : Except String Intent :=
  let t := intent.title.getD ""
  let allItems := enrichItems env intent.media_type
  match allItems.find? (exactMatch t) with
  | some item => .ok (assignIds intent item)
  | none =>
    match allItems.find? (partialMatch t) with
    | some item => .ok (assignIds intent item)
    | none =>
      match env.searchCatalog t with
      | .error e => .error e
      | .ok [] =>
        .error ("Could not find '" ++ t ++ "' in library or search results")
      | .ok (first :: _) =>
        if intent.media_type.val = "tv" then
          .ok { intent with item_id := first.tvdbId }
        else if intent.media_type.val = "movie" then
          .ok { intent with item_id := first.tmdbId }
        else
          .ok intent

/-- `IntentEngine.enrich` (intent_engine.py lines 13-45): resolve the
title when `intent.title` is truthy and `intent.item_id` is falsy; then,
for TV with a truthy `series_id`, `_resolve_episodes` fetches the season's
episodes (stored only on a non-model attribute, so no Intent field
changes; the fetch can still raise). -/
def enrich (env : EnrichEnv) (intent : Intent) : Except String Intent :=
  let afterTitle : Except String Intent :=
    if pyTruthyStr intent.title ∧ ¬ pyTruthyInt intent.item_id then
      resolveTitle env intent
    else
      .ok intent
  match afterTitle with
  | .error e => .error e
  | .ok intent2 =>
    if intent2.media_type.val = "tv" ∧ pyTruthyInt intent2.series_id then
      match env.getEpisodes (intent2.series_id.getD 0) intent2.season with
      | .error e => .error e
      | .ok _ => .ok intent2
    else
      .ok intent2

/-! ## Executor (core/executor.py) with backend environment and call trace -/

/-- One outbound backend call made by an executor handler (recorded so
frame properties such as "no creation call was submitted" are provable). -/
inductive BackendCall where
  | getEpisodesCall : Int → Option Int → BackendCall
  | deleteFiles : List Int → BackendCall
  | deleteItemCall : Int → Bool → BackendCall
  | searchCat : Option String → BackendCall
  | triggerSeriesSearch : Int → BackendCall
  | triggerMovieSearch : Int → BackendCall
  | getProfiles : BackendCall
  | getRootFoldersCall : BackendCall
  | addSeriesCall : Int → BackendCall
  | addMovieCall : Int → BackendCall
  | getAllCall : BackendCall
  | getItemCall : Int → BackendCall
  deriving DecidableEq, Repr

/-- A quality profile: the add path reads `profiles[0]["id"]`. -/
structure Profile where
  id : Int
  deriving DecidableEq, Repr

/-- A root folder: the add path reads `root_folders[0]["path"]`. -/
structure RootFolder where
  path : String
  deriving DecidableEq, Repr

/-- The backend environment for one `Executor.execute` call: the results
(or raised exceptions) of the client calls the handlers may make.
`deleteFileOk fid` tells whether `delete_episode_file(fid)` succeeds
(`SonarrClient.delete_episode_files` counts exactly the successes and
swallows per-file failures).  `getClientErr` is the `ValueError` message
`get_client_for_media_type` raises when the backend for a media type is
not configured (`none` = configured). -/
structure ExecEnv where
  getClientErr : MediaType → Option String := fun _ => none
  getEpisodes : Int → Option Int → Except String (List RawEpisode) := fun _ _ => .ok []
  deleteFileOk : Int → Bool := fun _ => true
  deleteItemRes : Int → Bool → Except String Unit := fun _ _ => .ok ()
  searchRes : Option String → Except String (List SearchResult) := fun _ => .ok []
  triggerSeriesSearchRes : Int → Except String Unit := fun _ => .ok ()
  triggerMovieSearchRes : Int → Except String Unit := fun _ => .ok ()
  getQualityProfiles : Except String (List Profile) := .ok []
  getRootFolders : Except String (List RootFolder) := .ok []
  addSeriesRes : Int → Except String Unit := fun _ => .ok ()
  addMovieRes : Int → Except String Unit := fun _ => .ok ()
  getAllRes : Except String (List RawItem) := .ok []
  getItemRes : Int → Except String Unit := fun _ => .ok ()

/-- `SonarrClient.delete_episode_files` (sonarr.py lines 139-155): delete
each file id in turn, swallowing per-file failures, and return the number
actually deleted. -/
def deleteEpisodeFiles (ok : Int → Bool) (fileIds : List Int) : Nat :=
  (fileIds.filter ok).length

/-- Episode filter of `_remove_tv_content`:
`ep.get("episodeNumber") in intent.episodes`. -/
def epRequested (es : List Int) (ep : RawEpisode) : Bool :=
  match ep.episodeNumber with
  | some n => es.contains n
  | none => false

/-- File-id collection of `_remove_tv_content` / season deletion:
keep `ep["episodeFileId"]` when `ep.get("episodeFileId")` is truthy
(so a present-but-zero id is skipped, Python truthiness). -/
def collectFileIds (eps : List RawEpisode) : List Int :=
  eps.filterMap fun ep =>
    match ep.episodeFileId with
    | some fid => if fid ≠ 0 then some fid else none
    | none => none

/-- The guard of the per-episode deletion branch of `_remove_tv_content`:
`if intent.episodes and intent.season is not None:` — note that it tests
`is not None`, so `season = 0` counts as set here, unlike in `validate`. -/
def removeTvEpisodeBranch (intent : Intent) : Bool :=
  pyTruthyList intent.episodes && intent.season.isSome

/-- `Executor._remove_tv_content` (executor.py lines 77-166).  Returns the
handler outcome (a result, or a raised exception) together with the trace
of backend calls made. -/
def removeTvContent (env : ExecEnv) (intent : Intent) :
    Except String ExecutionResult × List BackendCall :=
  if ¬ pyTruthyInt intent.series_id then
    (.ok { success := false
           message := "Could not find series '" ++ pyShowOptStr intent.title ++
             "' in library" }, [])
  else
    let sid := intent.series_id.getD 0
    if removeTvEpisodeBranch intent then
      let es := (intent.episodes.getD [])
      match env.getEpisodes sid intent.season with
      | .error e => (.error e, [.getEpisodesCall sid intent.season])
      | .ok allEpisodes =>
        let targetEpisodes := allEpisodes.filter (epRequested es)
        if targetEpisodes = [] then
          (.ok { success := false
                 message := "Could not find episodes " ++ pyShowIntList es ++
                   " in season " ++ pyShowOptInt intent.season },
           [.getEpisodesCall sid intent.season])
        else
          let fileIds := collectFileIds targetEpisodes
          if fileIds = [] then
            (.ok { success := false
                   message := "Episodes " ++ pyShowIntList es ++
                     " have no files to delete" },
             [.getEpisodesCall sid intent.season])
          else
            let deletedCount := deleteEpisodeFiles env.deleteFileOk fileIds
            (.ok { success := true
                   message := "Removed " ++ toString deletedCount ++
                     " episode file(s) from " ++ pyShowOptStr intent.title ++
                     " Season " ++ pyShowOptInt intent.season
                   data := some [("deleted_count", .intVal deletedCount),
                                 ("file_ids", .intList fileIds)] },
             [.getEpisodesCall sid intent.season, .deleteFiles fileIds])
    else if intent.season.isSome then
      match env.getEpisodes sid intent.season with
      | .error e => (.error e, [.getEpisodesCall sid intent.season])
      | .ok allEpisodes =>
        let fileIds := collectFileIds allEpisodes
        if fileIds = [] then
          (.ok { success := false
                 message := "Season " ++ pyShowOptInt intent.season ++
                   " has no files to delete" },
           [.getEpisodesCall sid intent.season])
        else
          let deletedCount := deleteEpisodeFiles env.deleteFileOk fileIds
          (.ok { success := true
                 message := "Removed " ++ toString deletedCount ++
                   " episode file(s) from " ++ pyShowOptStr intent.title ++
                   " Season " ++ pyShowOptInt intent.season
                 data := some [("deleted_count", .intVal deletedCount)] },
           [.getEpisodesCall sid intent.season, .deleteFiles fileIds])
    else
      match env.deleteItemRes sid true with
      | .error e => (.error e, [.deleteItemCall sid true])
      | .ok _ =>
        (.ok { success := true
               message := "Removed series '" ++ pyShowOptStr intent.title ++
                 "' and all files" },
         [.deleteItemCall sid true])

/-- `Executor._remove_movie` (executor.py lines 168-191). -/
def removeMovie (env : ExecEnv) (intent : Intent) :
    Except String ExecutionResult × List BackendCall :=
  if ¬ pyTruthyInt intent.item_id then
    (.ok { success := false
           message := "Could not find movie '" ++ pyShowOptStr intent.title ++
             "' in library" }, [])
  else
    let iid := intent.item_id.getD 0
    match env.deleteItemRes iid true with
    | .error e => (.error e, [.deleteItemCall iid true])
    | .ok _ =>
      (.ok { success := true
             message := "Removed movie '" ++ pyShowOptStr intent.title ++
               "' and all files" },
       [.deleteItemCall iid true])

/-- `Executor._execute_remove` (executor.py lines 55-75): route by media
type. -/
def executeRemove (env : ExecEnv) (intent : Intent) :
    Except String ExecutionResult × List BackendCall :=
  if intent.media_type.val = "tv" then removeTvContent env intent
  else if intent.media_type.val = "movie" then removeMovie env intent
  else
    (.ok { success := false
           message := "Remove not yet implemented for " ++ intent.media_type.val },
     [])

/-- `Executor._execute_search` (executor.py lines 193-227). -/
def executeSearch (env : ExecEnv) (intent : Intent) :
    Except String ExecutionResult × List BackendCall :=
  if pyTruthyInt intent.series_id ∧ intent.media_type.val = "tv" then
    let sid := intent.series_id.getD 0
    match env.triggerSeriesSearchRes sid with
    | .error e => (.error e, [.triggerSeriesSearch sid])
    | .ok _ =>
      (.ok { success := true
             message := "Triggered search for '" ++ pyShowOptStr intent.title ++ "'"
             data := some [("command", .payload)] },
       [.triggerSeriesSearch sid])
  else if pyTruthyInt intent.item_id ∧ intent.media_type.val = "movie" then
    let iid := intent.item_id.getD 0
    match env.triggerMovieSearchRes iid with
    | .error e => (.error e, [.triggerMovieSearch iid])
    | .ok _ =>
      (.ok { success := true
             message := "Triggered search for '" ++ pyShowOptStr intent.title ++ "'"
             data := some [("command", .payload)] },
       [.triggerMovieSearch iid])
  else
    let q := some (intent.title.getD "")
    match env.searchRes q with
    | .error e => (.error e, [.searchCat q])
    | .ok results =>
      (.ok { success := true
             message := "Found " ++ toString results.length ++ " result(s) for '" ++
               pyShowOptStr intent.title ++ "'"
             data := some [("results", .payload)] },
       [.searchCat q])

/-- `Executor._execute_add` (executor.py lines 229-307): fetch quality
profiles and root folders first; if either list is empty, fail without
searching or submitting a creation call; otherwise search the catalog and
add the first result with the first profile and root folder. -/
def executeAdd (env : ExecEnv) (intent : Intent) :
    Except String ExecutionResult × List BackendCall :=
  match env.getQualityProfiles with
  | .error e => (.error e, [.getProfiles])
  | .ok profiles =>
    match env.getRootFolders with
    | .error e => (.error e, [.getProfiles, .getRootFoldersCall])
    | .ok rootFolders =>
      if profiles = [] ∨ rootFolders = [] then
        (.ok { success := false
               message := "No quality profiles or root folders configured" },
         [.getProfiles, .getRootFoldersCall])
      else
        if intent.media_type.val = "tv" then
          match env.searchRes intent.title with
          | .error e => (.error e, [.getProfiles, .getRootFoldersCall, .searchCat intent.title])
          | .ok [] =>
            (.ok { success := false
                   message := "Could not find '" ++ pyShowOptStr intent.title ++
                     "' to add" },
             [.getProfiles, .getRootFoldersCall, .searchCat intent.title])
          | .ok (show_ :: _) =>
            match show_.tvdbId with
            | none =>
              (.error "KeyError: tvdbId",
               [.getProfiles, .getRootFoldersCall, .searchCat intent.title])
            | some tvdbId =>
              match env.addSeriesRes tvdbId with
              | .error e =>
                (.error e,
                 [.getProfiles, .getRootFoldersCall, .searchCat intent.title,
                  .addSeriesCall tvdbId])
              | .ok _ =>
                (.ok { success := true
                       message := "Added '" ++ show_.title ++ "' to library"
                       data := some [("added", .payload)] },
                 [.getProfiles, .getRootFoldersCall, .searchCat intent.title,
                  .addSeriesCall tvdbId])
        else if intent.media_type.val = "movie" then
          match env.searchRes intent.title with
          | .error e => (.error e, [.getProfiles, .getRootFoldersCall, .searchCat intent.title])
          | .ok [] =>
            (.ok { success := false
                   message := "Could not find '" ++ pyShowOptStr intent.title ++
                     "' to add" },
             [.getProfiles, .getRootFoldersCall, .searchCat intent.title])
          | .ok (movie :: _) =>
            match movie.tmdbId with
            | none =>
              (.error "KeyError: tmdbId",
               [.getProfiles, .getRootFoldersCall, .searchCat intent.title])
            | some tmdbId =>
              match env.addMovieRes tmdbId with
              | .error e =>
                (.error e,
                 [.getProfiles, .getRootFoldersCall, .searchCat intent.title,
                  .addMovieCall tmdbId])
              | .ok _ =>
                (.ok { success := true
                       message := "Added '" ++ movie.title ++ "' to library"
                       data := some [("added", .payload)] },
                 [.getProfiles, .getRootFoldersCall, .searchCat intent.title,
                  .addMovieCall tmdbId])
        else
          (.ok { success := false
                 message := "Add not yet implemented for " ++ intent.media_type.val },
           [.getProfiles, .getRootFoldersCall])

/-- `Executor._execute_list` (executor.py lines 309-341). -/
def executeList (env : ExecEnv) (intent : Intent) :
    Except String ExecutionResult × List BackendCall :=
  if intent.media_type.val = "tv" ∨ intent.media_type.val = "movie" then
    match env.getAllRes with
    | .error e => (.error e, [.getAllCall])
    | .ok items =>
      let noun := if intent.media_type.val = "tv" then " TV show(s)" else " movie(s)"
      (.ok { success := true
             message := "Found " ++ toString items.length ++ noun
             data := some [("titles", .strList (items.map RawItem.title)),
                           ("count", .intVal items.length)] },
       [.getAllCall])
  else
    (.ok { success := false
           message := "List not yet implemented for " ++ intent.media_type.val },
     [])

/-- `Executor._execute_info` (executor.py lines 343-367). -/
def executeInfo (env : ExecEnv) (intent : Intent) :
    Except String ExecutionResult × List BackendCall :=
  if ¬ pyTruthyInt intent.item_id then
    (.ok { success := false
           message := "Could not find '" ++ pyShowOptStr intent.title ++
             "' in library" }, [])
  else
    let iid := intent.item_id.getD 0
    match env.getItemRes iid with
    | .error e => (.error e, [.getItemCall iid])
    | .ok _ =>
      (.ok { success := true
             message := "Details for '" ++ pyShowOptStr intent.title ++ "'"
             data := some [("item", .payload)] },
       [.getItemCall iid])

/-- The body of `Executor.execute`'s outer `try` (executor.py lines
24-46): acquire the client (which may raise a configuration
`ValueError`), then route on the action. -/
def executeInner (env : ExecEnv) (intent : Intent) : Except String ExecutionResult :=
  match env.getClientErr intent.media_type with
  | some e => .error e
  | none =>
    if intent.action = .remove ∨ intent.action = .delete then
      (executeRemove env intent).1
    else if intent.action = .search then
      (executeSearch env intent).1
    else if intent.action = .add then
      (executeAdd env intent).1
    else if intent.action = .list then
      (executeList env intent).1
    else if intent.action = .info then
      (executeInfo env intent).1
    else
      .ok { success := false
            message := "Action '" ++ intent.action.val ++ "' not yet implemented" }

/-- `Executor.execute` (executor.py lines 15-53): every exception raised
inside is caught and converted to a failure `ExecutionResult`. -/
def execute (env : ExecEnv) (intent : Intent) : ExecutionResult :=
  match executeInner env intent with
  | .ok r => r
  | .error e =>
    { success := false
      message := "Execution failed: " ++ e
      errors := some [e] }

/-! ## Discovery (clients/discovery.py): per-backend probe blocks -/

/-- The probe observations for a single configured backend:
`test_connection()` never raises (it catches internally and returns a
bool); the follow-up version fetch (`get_system_status`/`get_version`)
can raise, and otherwise yields an optional version string. -/
structure ProbeEnv where
  testConn : Bool
  fetchVersion : Except String (Option String)

/-- The slice of `EnhancedServiceInfo` the probe decides (the remaining
fields come from static tables keyed by the product name). -/
structure DiscEntry where
  available : Bool
  version : Option String
  deriving DecidableEq, Repr

/-- The sonarr-style discovery block (discovery.py lines 233-268; the
radarr, lidarr, readarr, whisparr and bazarr blocks have the same shape):
the version fetch sits inside the block's outer `try`, so an exception
from it lands in the `except` branch, which records `available=False`. -/
def discoverStrictEntry (env : ProbeEnv) : DiscEntry :=
  let attempt : Except String DiscEntry :=
    if env.testConn then
      match env.fetchVersion with
      | .ok v => .ok { available := true, version := v }
      | .error e => .error e
    else
      .ok { available := false, version := none }
  match attempt with
  | .ok entry => entry
  | .error _ => { available := false, version := none }

/-- The audiobookshelf-style discovery block (discovery.py lines 463-503;
the lazylibrarian, huntarr and plex blocks have the same shape): the
version fetch is wrapped in an inner `try/except Exception: pass`, so its
failure leaves `available=True` with `version=None`. -/
def discoverLenientEntry (env : ProbeEnv) : DiscEntry :=
  let attempt : Except String DiscEntry :=
    if env.testConn then
      match env.fetchVersion with
      | .ok v => .ok { available := true, version := v }
      | .error _ => .ok { available := true, version := none }
    else
      .ok { available := false, version := none }
  match attempt with
  | .ok entry => entry
  | .error _ => { available := false, version := none }

/-! ## System prompt construction (llm/schemas.py lines 118-223) -/

/-- The `service_descriptions` table of `_build_service_context`. -/
def serviceDescription (svc : String) : String :=
  if svc = "sonarr" then "TV show management — search, add, remove, list"
  else if svc = "radarr" then "Movie management — search, add, remove, list"
  else if svc = "lidarr" then "Music management — artists, albums, tracks"
  else if svc = "whisparr" then "Adult content management"
  else if svc = "bazarr" then "Subtitle download and sync for TV shows and movies"
  else if svc = "audiobookshelf" then
    "Audiobook and podcast player — browse, search, progress"
  else if svc = "lazylibrarian" then
    "Book and audiobook management with automated downloading"
  else if svc = "huntarr" then "Orchestration and statistics across *arr services"
  else if svc = "plex" then
    "Media server — browse libraries, cross-library search, active sessions, refresh metadata, scan libraries, mark watched/unwatched"
  else if svc = "readarr" then "Book/audiobook management (DEPRECATED — project retired)"
  else svc

/-- One `"  - {svc}: {desc}"` line of the service context. -/
def serviceLine (svc : String) : String :=
  "  - " ++ svc ++ ": " ++ serviceDescription svc

/-- The warning text emitted when sonarr is not in the available list. -/
def tvMissingWarning : String := "TV show management (Sonarr not configured)"

/-- The warning text emitted when radarr is not in the available list. -/
def movieMissingWarning : String := "movie management (Radarr not configured)"

/-- The `missing` list of `_build_service_context`. -/
def buildMissing (avail : List String) : List String :=
  (if avail.contains "sonarr" then [] else [tvMissingWarning]) ++
  (if avail.contains "radarr" then [] else [movieMissingWarning])

/-- The `"\nNot available: ..."` line appended when `missing` is
non-empty. -/
def missingLine (avail : List String) : String :=
  "\nNot available: " ++ String.intercalate ", " (buildMissing avail) ++ "."

/-- The `lines` list `_build_service_context` joins (for a truthy
`available_services` argument). -/
def buildServiceLines (avail : List String) : List String :=
  ["\nCurrently available services:"] ++
  avail.map serviceLine ++
  (if buildMissing avail = [] then [] else [missingLine avail])

/-- `_build_service_context` (llm/schemas.py lines 181-223): empty string
when `available_services` is falsy (`None` or `[]`), otherwise the joined
lines. -/
def buildServiceContext (avail : Option (List String)) : String :=
  match avail with
  | none => ""
  | some [] => ""
  | some l => String.intercalate "\n" (buildServiceLines l)

/-- The fixed text of `get_system_prompt` before the interpolated
`service_context`. -/
def promptHead : String :=
  "You are a media management assistant that extracts structured intent from natural language commands.\n"

/-- The fixed text of `get_system_prompt` after the interpolated
`service_context` (guidelines and examples; literal braces written via
escapes). -/
def promptTail : String :=
  "\nYour job is to parse commands about managing TV shows, movies, music, audiobooks, books, and other media across multiple services.\n\nKey guidelines:\n- Extract the ACTION (remove/delete, search, add, upgrade, list, info, download_subtitle, sync_subtitles)\n- Identify the MEDIA TYPE (tv, movie, music, audiobook, book, adult)\n- Extract the TITLE exactly as mentioned\n- For TV shows, extract SEASON and EPISODE numbers if mentioned\n- Extract any CRITERIA (language, quality, year, service, operation)\n- Set criteria.service when the command targets a specific service (plex, bazarr, etc.)\n- Set criteria.operation for service-specific operations (refresh, scan, sessions, watched, etc.)\n\nStandard *arr examples:\n- \"remove episode 1 and 2 of Angel season 1\" → action=remove, media_type=tv, title=\"Angel\", season=1, episodes=[1,2]\n- \"add Breaking Bad to my library\" → action=add, media_type=tv, title=\"Breaking Bad\"\n- \"find 4K version of Blade Runner\" → action=search, media_type=movie, title=\"Blade Runner\", criteria=\x7bquality: \"4K\"\x7d\n- \"show me all my TV shows\" → action=list, media_type=tv\n- \"search for an all English version\" → action=search, media_type=tv, criteria=\x7blanguage: \"English\"\x7d\n- \"delete The Office and all its files\" → action=delete, media_type=tv, title=\"The Office\"\n- \"redownload Ghosts season 1 episode 1\" → action=search, media_type=tv, title=\"Ghosts\", season=1, episodes=[1]\n- \"re-download a new version of The Wire S02E05\" → action=search, media_type=tv, title=\"The Wire\", season=2, episodes=[5]\n- \"get a better copy of Inception\" → action=search, media_type=movie, title=\"Inception\"\n- \"upgrade The Matrix to 4K\" → action=upgrade, media_type=movie, title=\"The Matrix\", criteria=\x7bquality: \"4K\"\x7d\n- \"check for new versions of Firefly\" → action=search, media_type=tv, title=\"Firefly\"\n\nPlex examples:\n- \"what's playing on Plex\" → action=list, media_type=tv, criteria=\x7bservice: \"plex\", operation: \"sessions\"\x7d\n- \"show active Plex streams\" → action=list, media_type=tv, criteria=\x7bservice: \"plex\", operation: \"sessions\"\x7d\n- \"refresh Plex metadata for Breaking Bad\" → action=search, media_type=tv, title=\"Breaking Bad\", criteria=\x7bservice: \"plex\", operation: \"refresh\"\x7d\n- \"scan my Plex libraries\" → action=list, media_type=tv, criteria=\x7bservice: \"plex\", operation: \"scan\"\x7d\n- \"mark The Sopranos as watched in Plex\" → action=info, media_type=tv, title=\"The Sopranos\", criteria=\x7bservice: \"plex\", operation: \"watched\"\x7d\n- \"show my Plex libraries\" → action=list, media_type=tv, criteria=\x7bservice: \"plex\"\x7d\n- \"empty Plex trash\" → action=delete, media_type=tv, criteria=\x7bservice: \"plex\", operation: \"trash\"\x7d\n\nSubtitle examples (Bazarr):\n- \"download missing subtitles for The Wire\" → action=download_subtitle, media_type=tv, title=\"The Wire\"\n- \"get English subtitles for Inception\" → action=download_subtitle, media_type=movie, title=\"Inception\", criteria=\x7blanguage: \"English\"\x7d\n- \"sync subtitles for Breaking Bad season 3\" → action=sync_subtitles, media_type=tv, title=\"Breaking Bad\", season=3\n- \"what shows are missing subtitles\" → action=list, media_type=tv, criteria=\x7bservice: \"bazarr\", operation: \"missing\"\x7d\n\nAudiobook / book examples:\n- \"list my audiobooks\" → action=list, media_type=audiobook\n- \"search for Dune audiobook\" → action=search, media_type=audiobook, title=\"Dune\"\n- \"add Terry Pratchett books\" → action=add, media_type=book, title=\"Terry Pratchett\"\n- \"show my audiobook library\" → action=list, media_type=audiobook, criteria=\x7bservice: \"audiobookshelf\"\x7d\n\nAlways use the parse_media_command function to return structured data."

/-- `get_system_prompt` (llm/schemas.py lines 118-178): fixed text with
the service context interpolated. -/
def getSystemPrompt (avail : Option (List String)) : String :=
  promptHead ++ buildServiceContext avail ++ promptTail

/-! ## Concrete instances used by witnesses and counterexamples -/

/-- An executor environment whose episode fetch raises a backend
timeout. -/
def timeoutEnv : ExecEnv := { getEpisodes := fun _ _ => .error "Connection timeout" }

/-- A TV remove intent targeting season 1, episodes 1 and 2 of a resolved
series. -/
def removeEp12Intent : Intent :=
  { action := .remove, media_type := .tv, title := some "Angel",
    season := some 1, episodes := some [1, 2], series_id := some 7 }

/-- A backend whose season listing has files for episodes 1, 2 and 3. -/
def bothFilesEnv : ExecEnv :=
  { getEpisodes := fun _ _ => .ok
      [{ episodeNumber := some 1, episodeFileId := some 101 },
       { episodeNumber := some 2, episodeFileId := some 102 },
       { episodeNumber := some 3, episodeFileId := some 103 }] }

/-- A backend whose season listing has a file for episode 1 only. -/
def oneFileEnv : ExecEnv :=
  { getEpisodes := fun _ _ => .ok
      [{ episodeNumber := some 1, episodeFileId := some 101 },
       { episodeNumber := some 2, episodeFileId := none }] }

/-- A library holding a partial-match candidate before an exact-match
candidate for the query "Angel". -/
def enrichEnvC6 : EnrichEnv :=
  { library := [{ title := "Angel Falls", id := some 9 },
                { title := "angel", id := some 5 }]
    searchCatalog := fun _ => .ok []
    getEpisodes := fun _ _ => .ok [] }

/-- A TV remove intent for the title "Angel", not yet resolved. -/
def intentC6 : Intent := { action := .remove, media_type := .tv, title := some "Angel" }

/-- A backend with no quality profiles, one root folder, and a catalog
search that succeeds. -/
def addEnvC7 : ExecEnv :=
  { getQualityProfiles := .ok []
    getRootFolders := .ok [{ path := "/tv" }]
    searchRes := fun _ => .ok [{ tvdbId := some 42, title := "Angel" }] }

/-- An Add intent for the title "Angel". -/
def addIntentC7 : Intent := { action := .add, media_type := .tv, title := some "Angel" }

/-- A movie library containing "Angel" with id 5. -/
def enrichEnvC9 : EnrichEnv :=
  { library := [{ title := "Angel", id := some 5 }]
    searchCatalog := fun _ => .ok []
    getEpisodes := fun _ _ => .ok [] }

/-- A movie remove intent whose `item_id` is already set — to `0`, which
Python truthiness treats as unset. -/
def intentC9 : Intent :=
  { action := .remove, media_type := .movie, title := some "Angel", item_id := some 0 }

/-- The same movie remove intent with `item_id` genuinely unset. -/
def intentC9w : Intent :=
  { action := .remove, media_type := .movie, title := some "Angel" }

/-- The enriched form of the two movie intents above: `item_id`
resolved to the library id 5. -/
def enrichedC9 : Intent :=
  { action := .remove, media_type := .movie, title := some "Angel", item_id := some 5 }

/-! ## Theorems -/

/-! ### Shared helper lemmas -/

/-- `List.find?` returns the unique element satisfying `p`, wherever it
sits in the list. -/
theorem find_eq_of_unique {α : Type} (p : α → Bool) :
    ∀ (l : List α) (a : α), a ∈ l → p a = true →
    (∀ x ∈ l, p x = true → x = a) → l.find? p = some a := by
  intro l
  induction l with
  | nil => intro a ha _ _; cases ha
  | cons b t ih =>
    intro a ha hpa huniq
    by_cases hb : p b = true
    · have hba : b = a := huniq b (by simp) hb
      rw [List.find?_cons_of_pos _ hb, hba]
    · have hne : a ≠ b := fun h => hb (h ▸ hpa)
      rw [List.find?_cons_of_neg _ (by simpa using hb)]
      have ha' : a ∈ t := by
        rcases List.mem_cons.mp ha with h | h
        · exact absurd h hne
        · exact h
      exact ih a ha' hpa (fun x hx hpx => huniq x (List.mem_cons_of_mem _ hx) hpx)

/-- The only `MediaType` whose `.value` is `"tv"` is `tv`. -/
theorem mediaTypeVal_tv {m : MediaType} (h : m.val = "tv") : m = .tv := by
  cases m <;> first | rfl | (exfalso; simp [MediaType.val] at h)

/-- `_resolve_title` changes at most `item_id` and `series_id`, and
changes `series_id` only for TV intents. -/
theorem resolveTitle_frame (env : EnrichEnv) (i i' : Intent)
    (h : resolveTitle env i = .ok i') :
    i'.action = i.action ∧ i'.media_type = i.media_type ∧ i'.title = i.title ∧
    i'.season = i.season ∧ i'.episodes = i.episodes ∧ i'.criteria = i.criteria ∧
    (i'.series_id ≠ i.series_id → i.media_type = .tv) := by
  have hassign : ∀ item : RawItem, assignIds i item = i' →
      i'.action = i.action ∧ i'.media_type = i.media_type ∧ i'.title = i.title ∧
      i'.season = i.season ∧ i'.episodes = i.episodes ∧ i'.criteria = i.criteria ∧
      (i'.series_id ≠ i.series_id → i.media_type = .tv) := by
    intro item hi
    subst hi
    refine ⟨rfl, rfl, rfl, rfl, rfl, rfl, ?_⟩
    intro hne
    by_cases htv : i.media_type.val = "tv"
    · exact mediaTypeVal_tv htv
    · simp [assignIds, htv] at hne
  cases hfe : List.find? (exactMatch (i.title.getD "")) (enrichItems env i.media_type) with
  | some item =>
    simp only [resolveTitle, hfe, Except.ok.injEq] at h
    exact hassign item h
  | none =>
    cases hfp : List.find? (partialMatch (i.title.getD "")) (enrichItems env i.media_type) with
    | some item =>
      simp only [resolveTitle, hfe, hfp, Except.ok.injEq] at h
      exact hassign item h
    | none =>
      cases hsc : env.searchCatalog (i.title.getD "") with
      | error e => simp [resolveTitle, hfe, hfp, hsc] at h
      | ok l =>
        cases l with
        | nil => simp [resolveTitle, hfe, hfp, hsc] at h
        | cons first rest =>
          simp only [resolveTitle, hfe, hfp, hsc] at h
          by_cases htv : i.media_type.val = "tv"
          · simp only [htv, if_true, Except.ok.injEq] at h
            subst h
            exact ⟨rfl, rfl, rfl, rfl, rfl, rfl, fun hne => absurd rfl hne⟩
          · by_cases hmv : i.media_type.val = "movie"
            · rw [hmv] at h
              rw [if_neg (by decide), if_pos rfl, Except.ok.injEq] at h
              subst h
              exact ⟨rfl, rfl, rfl, rfl, rfl, rfl, fun hne => absurd rfl hne⟩
            · rw [if_neg htv, if_neg hmv, Except.ok.injEq] at h
              subst h
              exact ⟨rfl, rfl, rfl, rfl, rfl, rfl, fun hne => absurd rfl hne⟩

/-! ### Claim theorems -/

/-- C1, counterexample: a TV Search intent with `episodes = [1, 2]` and
`season` unset validates cleanly — `validate` guards the season rule by
`action in \x7b"remove", "delete"\x7d` and `media_type == "tv"`, so the
rule is not returned "regardless of the intent's action or media type"
as the claim states. -/
theorem C1_counterexample :
    (let i : Intent :=
      { action := .search, media_type := .tv, title := some "Angel",
        episodes := some [1, 2] }
     validate i = [] ∧ i.episodes = some [1, 2] ∧ i.season = none) := by
  refine ⟨?_, rfl, rfl⟩
  decide

/-- C1, amended: for every TV Remove/Delete intent whose `episodes` list
is non-empty and whose `season` is unset, `validate` returns a non-empty
list containing the season-required rule, so `execute` is never reached
for such an intent. -/
theorem C1_amended_season_rule (intent : Intent) (es : List Int)
    (hm : intent.media_type = .tv)
    (ha : intent.action = .remove ∨ intent.action = .delete)
    (he : intent.episodes = some es) (hes : es ≠ [])
    (hs : intent.season = none) :
    seasonRequiredMsg ∈ validate intent ∧ validate intent ≠ [] := by
  have hmem : seasonRequiredMsg ∈ validate intent := by
    rcases ha with h | h <;>
      simp [validate, h, hm, ActionType.val, MediaType.val, pyTruthyList,
        pyTruthyInt, he, hs, hes]
  exact ⟨hmem, List.ne_nil_of_mem hmem⟩

/-- C1 witness: the amended theorem at a concrete Remove intent. -/
theorem C1_witness :
    seasonRequiredMsg ∈ validate
      { action := .remove, media_type := .tv, title := some "Angel",
        episodes := some [1, 2] } :=
  (C1_amended_season_rule _ [1, 2] rfl (Or.inl rfl) rfl (by decide) rfl).1

/-- C10: `validate` tests Python truthiness (`not intent.season`), so a
TV Remove/Delete intent with non-empty `episodes` and `season = 0` is
rejected with the season-required rule even though `season` carries a
value, while the per-episode deletion branch of `_remove_tv_content`
tests `intent.season is not None` and therefore treats `season = 0` as
set. -/
theorem C10_season_zero (intent : Intent) (es : List Int)
    (hm : intent.media_type = .tv)
    (ha : intent.action = .remove ∨ intent.action = .delete)
    (he : intent.episodes = some es) (hes : es ≠ [])
    (hs : intent.season = some 0) :
    seasonRequiredMsg ∈ validate intent ∧
      removeTvEpisodeBranch intent = true := by
  constructor
  · rcases ha with h | h <;>
      simp [validate, h, hm, ActionType.val, MediaType.val, pyTruthyList,
        pyTruthyInt, he, hs, hes]
  · simp [removeTvEpisodeBranch, pyTruthyList, he, hes, hs]

/-- C10 witness: the theorem at a concrete season-0 Remove intent. -/
theorem C10_witness :
    seasonRequiredMsg ∈ validate
      { action := .remove, media_type := .tv, title := some "Angel",
        season := some 0, episodes := some [1, 2] } ∧
    removeTvEpisodeBranch
      { action := .remove, media_type := .tv, title := some "Angel",
        season := some 0, episodes := some [1, 2] } = true :=
  C10_season_zero _ [1, 2] rfl (Or.inl rfl) rfl (by decide) rfl

/-- C3: every exception raised inside `Executor.execute`'s body (backend
failures, resolution failures, the configuration `ValueError` from client
acquisition) is caught at the boundary and converted into an
`ExecutionResult` with `success = false`, a message describing the
failure, and a non-empty `errors` list; `execute` is a total function
into `ExecutionResult`, so no fault propagates to the caller. -/
theorem C3_exceptions_caught (env : ExecEnv) (intent : Intent) (e : String)
    (h : executeInner env intent = .error e) :
    execute env intent =
      { success := false
        message := "Execution failed: " ++ e
        errors := some [e] } ∧
    (execute env intent).errors = some [e] := by
  simp [execute, h]

/-- C3 witness: a TV remove whose episode fetch raises a backend timeout
is reported as a failure result carrying the error. -/
theorem C3_witness :
    execute timeoutEnv removeEp12Intent =
      { success := false
        message := "Execution failed: Connection timeout"
        errors := some ["Connection timeout"] } :=
  (C3_exceptions_caught timeoutEnv removeEp12Intent "Connection timeout" rfl).1

/-- C4, counterexample: in the sonarr discovery block the version fetch
is inside the block's outer `try`, so with a successful `test_connection`
probe and a failing version fetch the recorded descriptor has
`available = false` — contradicting the claim that a version-fetch
failure never flips `available`. -/
theorem C4_counterexample :
    (discoverStrictEntry
      { testConn := true, fetchVersion := .error "timeout" }).available = false := by
  decide

/-- C4, amended: the version fetch is best-effort only in the
audiobookshelf, lazylibrarian, huntarr and plex discovery blocks, where
an inner `try/except: pass` leaves `available = true` with the version
unset; in the sonarr, radarr, lidarr, readarr, whisparr and bazarr blocks
a version-fetch failure is caught by the block's outer handler and the
descriptor is recorded with `available = false`. -/
theorem C4_amended_version_fetch :
    (∀ (env : ProbeEnv) (e : String), env.testConn = true →
        env.fetchVersion = .error e →
        discoverStrictEntry env = { available := false, version := none }) ∧
    (∀ env : ProbeEnv, env.testConn = true →
        (discoverLenientEntry env).available = true) ∧
    (∀ (env : ProbeEnv) (e : String), env.testConn = true →
        env.fetchVersion = .error e →
        discoverLenientEntry env = { available := true, version := none }) := by
  refine ⟨?_, ?_, ?_⟩
  · intro env e ht hf
    simp [discoverStrictEntry, ht, hf]
  · intro env ht
    simp only [discoverLenientEntry, ht, if_true]
    cases h : env.fetchVersion <;> simp [h]
  · intro env e ht hf
    simp [discoverLenientEntry, ht, hf]

/-- C4 witness: the amended theorem at concrete probe observations — a
failing version fetch records `available = false` in a sonarr-style block
and `available = true` (version unset) in an audiobookshelf-style block. -/
theorem C4_witness :
    discoverStrictEntry { testConn := true, fetchVersion := .error "boom" } =
      { available := false, version := none } ∧
    discoverLenientEntry { testConn := true, fetchVersion := .error "boom" } =
      { available := true, version := none } :=
  ⟨C4_amended_version_fetch.1 _ "boom" rfl rfl,
   C4_amended_version_fetch.2.2 _ "boom" rfl rfl⟩

/-- C5, counterexample: the LLM tool schema's enums list
`download_subtitle`, `sync_subtitles`, `book` and `adult`, but the
`Intent` model's `ActionType`/`MediaType` enums do not contain them, so
pydantic rejects such values at Intent construction — contradicting the
claim that an Intent carrying them can be constructed. -/
theorem C5_counterexample :
    ActionType.ofString "download_subtitle" = none ∧
    ActionType.ofString "sync_subtitles" = none ∧
    MediaType.ofString "book" = none ∧
    MediaType.ofString "adult" = none ∧
    "download_subtitle" ∈ schemaActionEnum ∧
    "sync_subtitles" ∈ schemaActionEnum ∧
    "book" ∈ schemaMediaTypeEnum ∧
    "adult" ∈ schemaMediaTypeEnum := by
  decide

/-- C5, amended: an Intent accepts exactly the action values
\x7bremove, search, add, upgrade, list, info, delete\x7d and exactly the
media-type values \x7btv, movie, music, audiobook\x7d: each such value
constructs, and every other string is rejected at construction (the
extraction schema's extra values `download_subtitle`, `sync_subtitles`,
`book`, `adult` included). -/
theorem C5_amended_enum_values :
    (∀ s : String, (ActionType.ofString s).isSome =
      ["remove", "search", "add", "upgrade", "list", "info", "delete"].contains s) ∧
    (∀ s : String, (MediaType.ofString s).isSome =
      ["tv", "movie", "music", "audiobook"].contains s) ∧
    (∀ a : ActionType, ActionType.ofString a.val = some a) ∧
    (∀ m : MediaType, MediaType.ofString m.val = some m) := by
  refine ⟨?_, ?_, ?_, ?_⟩
  · intro s
    simp only [ActionType.ofString]
    repeat' split
    all_goals simp_all [List.elem_eq_mem]
  · intro s
    simp only [MediaType.ofString]
    repeat' split
    all_goals simp_all [List.elem_eq_mem]
  · intro a; cases a <;> rfl
  · intro m; cases m <;> rfl

/-- C2: for a TV Remove/Delete intent with `season` set and `episodes`
non-empty, `_remove_tv_content` fetches the season's episodes, keeps
exactly those whose `episodeNumber` is among the requested episodes and
which carry a truthy `episodeFileId`, calls `delete_episode_files` on
exactly those file ids, and reports a `deleted_count` equal to the number
of files actually deleted (the per-file successes counted by
`delete_episode_files`). -/
theorem C2_deletion_count
    (env : ExecEnv) (intent : Intent) (sid : Int) (es : List Int)
    (eps : List RawEpisode)
    (hsid : intent.series_id = some sid) (hsid0 : sid ≠ 0)
    (hep : intent.episodes = some es) (hes : es ≠ [])
    (hse : intent.season.isSome = true)
    (hget : env.getEpisodes sid intent.season = .ok eps)
    (hfid : collectFileIds (eps.filter (epRequested es)) ≠ []) :
    removeTvContent env intent =
      (.ok { success := true
             message := "Removed " ++
               toString (deleteEpisodeFiles env.deleteFileOk
                 (collectFileIds (eps.filter (epRequested es)))) ++
               " episode file(s) from " ++ pyShowOptStr intent.title ++
               " Season " ++ pyShowOptInt intent.season
             data := some
               [("deleted_count", .intVal (deleteEpisodeFiles env.deleteFileOk
                   (collectFileIds (eps.filter (epRequested es))))),
                ("file_ids", .intList (collectFileIds
                   (eps.filter (epRequested es))))] },
       [.getEpisodesCall sid intent.season,
        .deleteFiles (collectFileIds (eps.filter (epRequested es)))]) ∧
    deleteEpisodeFiles env.deleteFileOk
        (collectFileIds (eps.filter (epRequested es))) =
      ((collectFileIds (eps.filter (epRequested es))).filter
        env.deleteFileOk).length := by
  have htar : eps.filter (epRequested es) ≠ [] := by
    intro h; exact hfid (by simp [h, collectFileIds])
  constructor
  · simp [removeTvContent, pyTruthyInt, hsid, hsid0, removeTvEpisodeBranch,
      pyTruthyList, hep, hes, hse, hget, htar, hfid]
  · rfl

/-- C2 witness: with episodes `[1, 2]` both carrying files the result
reports `deleted_count = 2`; when only episode 1 carries a file it
reports `deleted_count = 1`. -/
theorem C2_witness :
    removeTvContent bothFilesEnv removeEp12Intent =
      (.ok { success := true
             message := "Removed 2 episode file(s) from Angel Season 1"
             data := some [("deleted_count", .intVal 2),
                           ("file_ids", .intList [101, 102])] },
       [.getEpisodesCall 7 (some 1), .deleteFiles [101, 102]]) ∧
    removeTvContent oneFileEnv removeEp12Intent =
      (.ok { success := true
             message := "Removed 1 episode file(s) from Angel Season 1"
             data := some [("deleted_count", .intVal 1),
                           ("file_ids", .intList [101])] },
       [.getEpisodesCall 7 (some 1), .deleteFiles [101]]) :=
  ⟨(C2_deletion_count bothFilesEnv removeEp12Intent 7 [1, 2] _
      rfl (by decide) rfl (by decide) rfl rfl (by decide)).1,
   (C2_deletion_count oneFileEnv removeEp12Intent 7 [1, 2] _
      rfl (by decide) rfl (by decide) rfl rfl (by decide)).1⟩

/-- C6: title resolution is priority-ordered and deterministic — whenever
the library listing contains an element that matches the intent's title
case-insensitively and that element is the unique exact match (in
particular when the listing also contains substring-match candidates, in
either order), `_resolve_title` assigns `item_id` (and, for TV,
`series_id`) from that exact-match element. -/
theorem C6_exact_match_priority (env : EnrichEnv) (intent : Intent) (it : RawItem)
    (hmem : it ∈ enrichItems env intent.media_type)
    (hex : exactMatch (intent.title.getD "") it = true)
    (huniq : ∀ x ∈ enrichItems env intent.media_type,
      exactMatch (intent.title.getD "") x = true → x = it) :
    resolveTitle env intent = .ok (assignIds intent it) ∧
    (assignIds intent it).item_id = it.id ∧
    (intent.media_type = .tv → (assignIds intent it).series_id = it.id) := by
  have hfind : (enrichItems env intent.media_type).find?
      (exactMatch (intent.title.getD "")) = some it :=
    find_eq_of_unique _ _ _ hmem hex huniq
  refine ⟨?_, rfl, ?_⟩
  · simp [resolveTitle, hfind]
  · intro h
    simp [assignIds, h, MediaType.val]

/-- C6 witness: a library listing the substring candidate "Angel Falls"
before the exact candidate "angel" still resolves the query "Angel" to
the exact candidate's id 5. -/
theorem C6_witness :
    resolveTitle enrichEnvC6 intentC6 =
      .ok { action := .remove, media_type := .tv, title := some "Angel",
            item_id := some 5, series_id := some 5 } :=
  (C6_exact_match_priority enrichEnvC6 intentC6 { title := "angel", id := some 5 }
    (by decide) (by decide) (by decide)).1

/-- C7: when the backend's quality-profile list or root-folder list is
empty, `_execute_add` returns the missing-destination failure after only
the two configuration fetches: no catalog search and no creation call
appear in the trace (whatever the catalog search would have returned),
and `execute` surfaces the same failure result. -/
theorem C7_add_destination_guard (env : ExecEnv) (intent : Intent)
    (ps : List Profile) (rs : List RootFolder)
    (hp : env.getQualityProfiles = .ok ps)
    (hr : env.getRootFolders = .ok rs)
    (hempty : ps = [] ∨ rs = []) :
    executeAdd env intent =
      (.ok { success := false
             message := "No quality profiles or root folders configured" },
       [.getProfiles, .getRootFoldersCall]) ∧
    (∀ i : Int, BackendCall.addSeriesCall i ∉ (executeAdd env intent).2 ∧
        BackendCall.addMovieCall i ∉ (executeAdd env intent).2) ∧
    (∀ q : Option String, BackendCall.searchCat q ∉ (executeAdd env intent).2) ∧
    (intent.action = .add → env.getClientErr intent.media_type = none →
      execute env intent =
        { success := false
          message := "No quality profiles or root folders configured" }) := by
  have hmain : executeAdd env intent =
      (.ok { success := false
             message := "No quality profiles or root folders configured" },
       [.getProfiles, .getRootFoldersCall]) := by
    rcases hempty with h | h <;> simp [executeAdd, hp, hr, h]
  refine ⟨hmain, ?_, ?_, ?_⟩
  · intro i; rw [hmain]; simp
  · intro q; rw [hmain]; simp
  · intro hact hcfg
    simp [execute, executeInner, hact, hcfg, hmain]

/-- C7 witness: with an empty quality-profile list, one root folder, and
a catalog search that would succeed, the Add intent still fails with the
missing-destination message and submits no creation call. -/
theorem C7_witness :
    executeAdd addEnvC7 addIntentC7 =
      (.ok { success := false
             message := "No quality profiles or root folders configured" },
       [.getProfiles, .getRootFoldersCall]) ∧
    execute addEnvC7 addIntentC7 =
      { success := false
        message := "No quality profiles or root folders configured" } :=
  ⟨(C7_add_destination_guard addEnvC7 addIntentC7 [] [{ path := "/tv" }]
      rfl rfl (Or.inl rfl)).1,
   (C7_add_destination_guard addEnvC7 addIntentC7 [] [{ path := "/tv" }]
      rfl rfl (Or.inl rfl)).2.2.2 rfl rfl⟩

/-- C8, counterexample: built from an empty availability list (no backend
marked available — in particular sonarr absent), `_build_service_context`
returns the empty string (`if not available_services: return ""`), so the
system prompt contains no statement that TV management is unavailable,
contradicting the claim for that list. -/
theorem C8_counterexample :
    "sonarr" ∉ ([] : List String) ∧
    buildServiceContext (some []) = "" ∧
    pyInStr tvMissingWarning (getSystemPrompt (some [])) = false := by
  refine ⟨by decide, rfl, by decide⟩

/-- C8, amended: for every non-empty availability list, the service
context joined into the prompt contains one `"  - svc: purpose"` line per
listed service and nothing else besides the header and the missing-backend
warning; when sonarr (resp. radarr) is absent the warning line containing
"TV show management (Sonarr not configured)" (resp. the Radarr text) is
present.  For an empty or missing list the context is empty and no
warning is emitted. -/
theorem C8_prompt_context (avail : List String) (hne : avail ≠ []) :
    buildServiceContext (some avail) =
      String.intercalate "\n" (buildServiceLines avail) ∧
    (∀ svc ∈ avail, serviceLine svc ∈ buildServiceLines avail) ∧
    (∀ l ∈ buildServiceLines avail,
      l = "\nCurrently available services:" ∨
      (∃ svc ∈ avail, l = serviceLine svc) ∨
      (buildMissing avail ≠ [] ∧ l = missingLine avail)) ∧
    (avail.contains "sonarr" = false →
      missingLine avail ∈ buildServiceLines avail ∧
      pyInStr tvMissingWarning (missingLine avail) = true) ∧
    (avail.contains "radarr" = false →
      missingLine avail ∈ buildServiceLines avail ∧
      pyInStr movieMissingWarning (missingLine avail) = true) := by
  refine ⟨?_, ?_, ?_, ?_, ?_⟩
  · cases avail with
    | nil => exact absurd rfl hne
    | cons a t => rfl
  · intro svc hsvc
    simp only [buildServiceLines, List.mem_append, List.mem_cons]
    exact Or.inl (Or.inr (List.mem_map_of_mem serviceLine hsvc))
  · intro l hl
    simp only [buildServiceLines, List.mem_append, List.mem_singleton,
      List.mem_map, List.mem_cons, List.not_mem_nil, or_false] at hl
    rcases hl with (hl | ⟨svc, hsvc, hlsvc⟩) | hl
    · exact Or.inl hl
    · exact Or.inr (Or.inl ⟨svc, hsvc, hlsvc.symm⟩)
    · rcases hmiss : buildMissing avail with _ | ⟨m, ms⟩
      · rw [hmiss] at hl
        simp at hl
      · rw [hmiss] at hl
        simp only [reduceCtorEq, if_false, List.mem_singleton] at hl
        exact Or.inr (Or.inr ⟨by simp [hmiss], hl⟩)
  · intro hs
    have hs' : "sonarr" ∉ avail := by simpa using hs
    have hmiss : buildMissing avail ≠ [] := by simp [buildMissing, hs']
    constructor
    · simp only [buildServiceLines, List.mem_append, List.mem_singleton]
      exact Or.inr (by rw [if_neg hmiss]; simp)
    · by_cases hr : "radarr" ∈ avail
      · have hbm : buildMissing avail = [tvMissingWarning] := by
          simp [buildMissing, hs', hr]
        unfold missingLine
        rw [hbm]
        decide
      · have hbm : buildMissing avail = [tvMissingWarning, movieMissingWarning] := by
          simp [buildMissing, hs', hr]
        unfold missingLine
        rw [hbm]
        decide
  · intro hr
    have hr' : "radarr" ∉ avail := by simpa using hr
    have hmiss : buildMissing avail ≠ [] := by
      by_cases hson : "sonarr" ∈ avail <;> simp [buildMissing, hson, hr']
    constructor
    · simp only [buildServiceLines, List.mem_append, List.mem_singleton]
      exact Or.inr (by rw [if_neg hmiss]; simp)
    · by_cases hson : "sonarr" ∈ avail
      · have hbm : buildMissing avail = [movieMissingWarning] := by
          simp [buildMissing, hson, hr']
        unfold missingLine
        rw [hbm]
        decide
      · have hbm : buildMissing avail = [tvMissingWarning, movieMissingWarning] := by
          simp [buildMissing, hson, hr']
        unfold missingLine
        rw [hbm]
        decide

/-- C8 witness: with only radarr available, the context lists radarr with
its purpose and carries the warning that TV management is unavailable. -/
theorem C8_witness :
    serviceLine "radarr" ∈ buildServiceLines ["radarr"] ∧
    missingLine ["radarr"] ∈ buildServiceLines ["radarr"] ∧
    pyInStr tvMissingWarning (missingLine ["radarr"]) = true := by
  obtain ⟨hctx, hmem, hclass, htv, hmv⟩ := C8_prompt_context ["radarr"] (by decide)
  obtain ⟨hin, hsub⟩ := htv (by decide)
  exact ⟨hmem "radarr" (by decide), hin, hsub⟩

/-- C9, counterexample: Python truthiness makes `enrich` treat an
`item_id` of `0` as unset (`if intent.title and not intent.item_id:`), so
an intent whose `item_id` is already set — to `0` — still gets `item_id`
rewritten by enrichment, contradicting the claim that writes happen only
when `item_id` was previously unset. -/
theorem C9_counterexample :
    intentC9.item_id ≠ none ∧
    enrich enrichEnvC9 intentC9 = .ok enrichedC9 ∧
    enrichedC9.item_id ≠ intentC9.item_id := by
  refine ⟨by decide, rfl, by decide⟩

/-- C9, amended: `enrich` writes only the `item_id` and `series_id`
fields, each at most once per call, and only when `title` is non-empty
and `item_id` was unset *or zero* (Python truthiness; `series_id` writes
additionally require TV media); `action`, `media_type`, `title`,
`season`, `episodes` and `criteria` are unchanged by `enrich`, and
`validate` and `execute` are pure consumers of the Intent. -/
theorem C9_enrich_frame (env : EnrichEnv) (i i' : Intent)
    (h : enrich env i = .ok i') :
    i'.action = i.action ∧ i'.media_type = i.media_type ∧ i'.title = i.title ∧
    i'.season = i.season ∧ i'.episodes = i.episodes ∧ i'.criteria = i.criteria ∧
    (i'.item_id ≠ i.item_id →
      pyTruthyStr i.title = true ∧ pyTruthyInt i.item_id = false) ∧
    (i'.series_id ≠ i.series_id →
      pyTruthyStr i.title = true ∧ pyTruthyInt i.item_id = false ∧
        i.media_type = .tv) := by
  unfold enrich at h
  by_cases hg : pyTruthyStr i.title ∧ ¬ pyTruthyInt i.item_id
  · rw [if_pos hg] at h
    cases hres : resolveTitle env i with
    | error e => rw [hres] at h; cases h
    | ok i2 =>
      rw [hres] at h
      dsimp only [] at h
      have hi2 : i2 = i' := by
        split at h
        · cases hge : env.getEpisodes (i2.series_id.getD 0) i2.season with
          | error e => rw [hge] at h; cases h
          | ok l => rw [hge] at h; cases h; rfl
        · cases h; rfl
      obtain ⟨f1, f2, f3, f4, f5, f6, f7⟩ := resolveTitle_frame env i i2 hres
      subst hi2
      refine ⟨f1, f2, f3, f4, f5, f6, ?_, ?_⟩
      · intro _
        exact ⟨hg.1, by simpa using hg.2⟩
      · intro hne
        exact ⟨hg.1, by simpa using hg.2, f7 hne⟩
  · rw [if_neg hg] at h
    dsimp only [] at h
    have hi : i = i' := by
      split at h
      · cases hge : env.getEpisodes (i.series_id.getD 0) i.season with
        | error e => rw [hge] at h; cases h
        | ok l => rw [hge] at h; cases h; rfl
      · cases h; rfl
    subst hi
    exact ⟨rfl, rfl, rfl, rfl, rfl, rfl,
      fun hne => absurd rfl hne, fun hne => absurd rfl hne⟩

/-- C9 witness: enriching a movie intent with unset `item_id` resolves it
to the library id while leaving the frame fields untouched, and the
`item_id` write certifies the truthy-title / falsy-item-id guard. -/
theorem C9_witness :
    enrichedC9.title = intentC9w.title ∧
    enrichedC9.season = intentC9w.season ∧
    enrichedC9.criteria = intentC9w.criteria ∧
    (enrichedC9.item_id ≠ intentC9w.item_id →
      pyTruthyStr intentC9w.title = true ∧
      pyTruthyInt intentC9w.item_id = false) := by
  obtain ⟨f1, f2, f3, f4, f5, f6, fw, fs⟩ :=
    C9_enrich_frame enrichEnvC9 intentC9w enrichedC9 rfl
  exact ⟨f3, f4, f6, fw⟩

end Arrmate
